import Mathlib

/-!
Shallow embedding of the NECST entity-component-system runtime
(src/src/universe.ts, the current `createUniverse` / `createRegistryView`
implementation) and proofs about its operations.

Modelling conventions:
* JavaScript objects used as string-keyed maps are embedded as association
  lists in key-insertion order (`JSMap`).  JS object keys are unique; the
  operations below preserve that invariant (set replaces in place, a new key
  is appended at the end, matching JS insertion-order enumeration for
  non-integer-like string keys, which all entity uuids and system/component
  names are).
* JS runtime values that can be stored as component payloads or command
  payloads are embedded as `JSValue`, with JS truthiness made explicit,
  because the source tests payloads with `!!entity[value]` and
  `!system.commandQueue[command]`.  Numbers are modelled as integers: every
  quantity the code manipulates here (milliseconds, update counts,
  `Number.MAX_SAFE_INTEGER`, `x * 1000`) is exactly representable, and no
  claim depends on fractional or NaN behaviour.
* System processors are embedded as straight-line programs over the
  capability object's verbs (`SysAction`): `sendCommand`, `handleCommand`,
  `freezeSystem`, `unfreezeSystem`.  A `handleCommand` handler invocation is
  recorded as a `Delivery` triple instead of running caller code.  The
  `time`/`delta` arguments passed to processors are not consumed by these
  programs; `delta` is still threaded through `update` because the scheduler
  uses it.
* `throw new Error(...)` (via `registryError`) is embedded as
  `Except.error` carrying the exact message string.
-/

namespace Necst

/-- A JavaScript runtime value, as far as the runtime core can observe it:
payloads are opaque except for their truthiness. `obj oid` stands for any
object reference (always truthy); `oid` only provides identity. -/
inductive JSValue where
  | num (n : Int)
  | str (s : String)
  | boolean (b : Bool)
  | null
  | undef
  | obj (oid : Nat)
deriving DecidableEq, Repr

/-- JS truthiness of a value, as used by `!!x` and `!x` in the source. -/
def JSValue.truthy : JSValue → Bool
  | .num n => n != 0
  | .str s => s != ""
  | .boolean b => b
  | .null => false
  | .undef => false
  | .obj _ => true

/-- A JS object used as a string-keyed map, in key-insertion order. -/
abbrev JSMap (α : Type) := List (String × α)

/-- Property read `m[key]`: the value stored under `key`, if present. -/
def objGet {α : Type} : JSMap α → String → Option α
  | [], _ => none
  | (k, v) :: rest, key => if k = key then some v else objGet rest key

/-- Property write `m[key] = value`: overwrite in place if the key exists,
append otherwise (JS insertion-order semantics). -/
def objSet {α : Type} : JSMap α → String → α → JSMap α
  | [], key, value => [(key, value)]
  | (k, v) :: rest, key, value =>
    if k = key then (k, value) :: rest else (k, v) :: objSet rest key value

/-- Property removal `delete m[key]`. -/
def objDelete {α : Type} : JSMap α → String → JSMap α
  | [], _ => []
  | (k, v) :: rest, key =>
    if k = key then objDelete rest key else (k, v) :: objDelete rest key

/-- An entity's component mapping: component name to payload. -/
abbrev Entity := JSMap JSValue

/-- The entity registry: entity uuid to component mapping. -/
abbrev EntityRegistry := JSMap Entity

/-- The record yielded by `createRegistryView` for one matching entity: a
single JS object sharing one key namespace between the `uuid` property and
the copied component names (so a queried component literally named
`"uuid"` overwrites the entity id, as in the source). -/
abbrev EntityViewData := JSMap JSValue

/-- The filter test of `createRegistryView`:
`components.every(value => !!entity[value])`.  An absent key reads as
`undefined`, so the test is JS truthiness of `entity[value]`. -/
def viewMatches (entity : Entity) (components : List String) : Bool :=
  components.all fun c => ((objGet entity c).getD JSValue.undef).truthy

/-- The record built by `createRegistryView` for a matching entity: it
starts as the object `{uuid: uuid}` and then assigns
`entityViewData[compKey] = entity[compKey]` for each own key of the entity
that is included in the query, in the entity's key order — writing into
the same object, so a queried component named `"uuid"` replaces the id. -/
def viewRecord (uuid : String) (entity : Entity) (components : List String) :
    EntityViewData :=
  entity.foldl
    (fun record kv =>
      if components.contains kv.1 then objSet record kv.1 kv.2 else record)
    [("uuid", JSValue.str uuid)]

/-- The generator `createRegistryView(registry, components)`: iterate the
registry in key order, yield a record for each entity passing the filter. -/
def createRegistryView : EntityRegistry → List String → List EntityViewData
  | [], _ => []
  | (uuid, entity) :: rest, components =>
    if viewMatches entity components then
      viewRecord uuid entity components :: createRegistryView rest components
    else
      createRegistryView rest components

/-- A per-system schedule, exactly the source's record
`{x, seconds, timeSinceLastUpdate}`. -/
structure Schedule where
  x : Int
  seconds : Bool
  timeSinceLastUpdate : Int
deriving DecidableEq, Repr

/-- The unit argument of `scheduleSystem`. -/
inductive ScheduleUnit where
  | updates
  | seconds
deriving DecidableEq, Repr

/-- One verb of the capability object available to a running system
processor. `handleCommand` carries only the command name; the handler's
invocation is recorded as a `Delivery`. `freezeSystem`/`unfreezeSystem`
take the optional system-name argument. -/
inductive SysAction where
  | sendCommand (target command : String) (data : JSValue)
  | handleCommand (command : String)
  | freezeSystem (target : Option String)
  | unfreezeSystem (target : Option String)
deriving DecidableEq, Repr

/-- A system-registry entry, exactly the source's
`{isFrozen, commandQueue, schedule?, systemProcessor}`. -/
structure SystemEntry where
  isFrozen : Bool
  commandQueue : JSMap JSValue
  schedule : Option Schedule
  processor : List SysAction
deriving DecidableEq, Repr

/-- The mutable state owned by one universe instance. -/
structure UniverseState where
  entityRegistry : EntityRegistry
  systemRegistry : JSMap SystemEntry
  createdAt : Int
  lastUpdateAt : Int
deriving DecidableEq, Repr

/-- A record of one handler invocation performed by `handleCommand`:
(receiving system, command name, payload passed to the handler). -/
abbrev Delivery := String × String × JSValue

/-- The source's `registryError(message)`: throws
`Error("ECS Registry Error: " + message)`. -/
def registryError {α : Type} (message : String) : Except String α :=
  .error ("ECS Registry Error: " ++ message)

/-- Number.MAX_SAFE_INTEGER, the initial `timeSinceLastUpdate` of a fresh
schedule. -/
def maxSafeInteger : Int := 2 ^ 53 - 1

/-- The `createEntity` operation, with the fresh uuid supplied externally
(the source draws it from `crypto.randomUUID()`). -/
def createEntity (st : UniverseState) (uuid : String) : UniverseState :=
  { st with entityRegistry := objSet st.entityRegistry uuid [] }

/-- The `attachComponent(uuid, name, data)` operation.  The guard
`!entityRegistry[uuid]` is key presence: a present entity is an object,
hence truthy. -/
def attachComponent (st : UniverseState) (uuid name : String) (data : JSValue) :
    Except String UniverseState :=
  match objGet st.entityRegistry uuid with
  | none => registryError "Attempted to attach component to nonexistent entity"
  | some entity =>
    .ok { st with entityRegistry :=
            objSet st.entityRegistry uuid (objSet entity name data) }

/-- The `detachComponent(uuid, componentName)` operation. -/
def detachComponent (st : UniverseState) (uuid componentName : String) :
    Except String UniverseState :=
  match objGet st.entityRegistry uuid with
  | none => registryError "Attempted to detach component from nonexistent entity"
  | some entity =>
    .ok { st with entityRegistry :=
            objSet st.entityRegistry uuid (objDelete entity componentName) }

/-- The `destroyEntity(uuid)` operation. -/
def destroyEntity (st : UniverseState) (uuid : String) :
    Except String UniverseState :=
  match objGet st.entityRegistry uuid with
  | none => registryError "Attempted to destroy nonexistent entity"
  | some _ => .ok { st with entityRegistry := objDelete st.entityRegistry uuid }

/-- The `cloneEntity(uuid)` operation: `return {...entityRegistry[uuid]}`.
There is no existence guard in the source; spreading `undefined` yields the
empty object, so a missing entity clones to `{}` and the call never throws. -/
def cloneEntity (st : UniverseState) (uuid : String) : Entity :=
  (objGet st.entityRegistry uuid).getD []

/-- The `registerSystem(name, processor)` operation. -/
def registerSystem (st : UniverseState) (name : String)
    (processor : List SysAction) : Except String UniverseState :=
  match objGet st.systemRegistry name with
  | some _ => registryError "Attempted to register already registered system"
  | none =>
    let fresh : SystemEntry :=
      { isFrozen := false, commandQueue := [], schedule := none,
        processor := processor }
    .ok { st with systemRegistry := objSet st.systemRegistry name fresh }

/-- The `unregisterSystem(name)` operation. -/
def unregisterSystem (st : UniverseState) (name : String) :
    Except String UniverseState :=
  match objGet st.systemRegistry name with
  | none => registryError "Attempted to unregister nonexistent system"
  | some _ => .ok { st with systemRegistry := objDelete st.systemRegistry name }

/-- The `isSystemRegistered(name)` query. -/
def isSystemRegistered (st : UniverseState) (name : String) : Bool :=
  (objGet st.systemRegistry name).isSome

/-- The `scheduleSystem(name, x, unit)` operation: overwrite the entry's
schedule with a fresh one whose accumulator starts at
`Number.MAX_SAFE_INTEGER`. -/
def scheduleSystem (st : UniverseState) (name : String) (x : Int)
    (unit : ScheduleUnit) : Except String UniverseState :=
  match objGet st.systemRegistry name with
  | none => registryError "Attempted to schedule a nonexistent system"
  | some entry =>
    let sch : Schedule :=
      { x := x, seconds := unit == ScheduleUnit.seconds,
        timeSinceLastUpdate := maxSafeInteger }
    .ok { st with systemRegistry :=
            objSet st.systemRegistry name { entry with schedule := some sch } }

/-- The `unscheduleSystem(name)` operation. -/
def unscheduleSystem (st : UniverseState) (name : String) :
    Except String UniverseState :=
  match objGet st.systemRegistry name with
  | none => registryError "Attempted to unschedule a nonexistent system"
  | some entry =>
    .ok { st with systemRegistry :=
            objSet st.systemRegistry name { entry with schedule := none } }

/-- The top-level `view(...components)` method of the universe. -/
def universeView (st : UniverseState) (components : List String) :
    List EntityViewData :=
  createRegistryView st.entityRegistry components

/-- The `createView(...comps)` capability verb handed to a running system:
its body is the same call to `createRegistryView` on the same registry. -/
def actionCreateView (st : UniverseState) (components : List String) :
    List EntityViewData :=
  createRegistryView st.entityRegistry components

/-- The `sendCommand(systemName, command, data)` capability verb: error if
the target system is not registered (`!systemRegistry[systemName]`, key
presence since entries are objects), otherwise
`systemRegistry[systemName].commandQueue[command] = data`. -/
def sendCommand (reg : JSMap SystemEntry) (systemName command : String)
    (data : JSValue) : Except String (JSMap SystemEntry) :=
  match objGet reg systemName with
  | none => registryError "Attempted to send command to nonexistent system"
  | some entry =>
    .ok (objSet reg systemName
      { entry with commandQueue := objSet entry.commandQueue command data })

/-- The `handleCommand(command, handler)` capability verb, acting on the
current system's queue: `if (!system.commandQueue[command]) return;` — a JS
truthiness test, so an absent command *or a falsy pending payload* is a
no-op.  Otherwise the handler is invoked with the payload (returned as
`some payload`) and the key is deleted. -/
def handleCommand (queue : JSMap JSValue) (command : String) :
    JSMap JSValue × Option JSValue :=
  let pending := (objGet queue command).getD JSValue.undef
  if pending.truthy then (objDelete queue command, some pending)
  else (queue, none)

/-- Execute one capability verb on behalf of the system named
`currentName`, returning the updated system registry together with the
handler invocations it performed.  Mid-pass the registry entry for the
current system is only ever mutated in place (never replaced or removed),
so the source's closure over `system` is equivalent to re-looking up
`currentName`; the `none` fallbacks are unreachable through the public
API. -/
def runAction (currentName : String) (reg : JSMap SystemEntry) :
    SysAction → Except String (JSMap SystemEntry × List Delivery)
  | .sendCommand target command data =>
    match sendCommand reg target command data with
    | .error e => .error e
    | .ok reg1 => .ok (reg1, [])
  | .handleCommand command =>
    match objGet reg currentName with
    | none => .ok (reg, [])
    | some entry =>
      match handleCommand entry.commandQueue command with
      | (_, none) => .ok (reg, [])
      | (queue1, some payload) =>
        .ok (objSet reg currentName { entry with commandQueue := queue1 },
             [(currentName, command, payload)])
  | .freezeSystem target =>
    match target with
    | some n =>
      match objGet reg n with
      | none => registryError "Attempted to freeze nonexistent system"
      | some entry => .ok (objSet reg n { entry with isFrozen := true }, [])
    | none =>
      match objGet reg currentName with
      | none => .ok (reg, [])
      | some entry =>
        .ok (objSet reg currentName { entry with isFrozen := true }, [])
  | .unfreezeSystem target =>
    match target with
    | some n =>
      match objGet reg n with
      | none => registryError "Attempted to unfreeze nonexistent system"
      | some entry => .ok (objSet reg n { entry with isFrozen := false }, [])
    | none =>
      match objGet reg currentName with
      | none => .ok (reg, [])
      | some entry =>
        .ok (objSet reg currentName { entry with isFrozen := false }, [])

/-- Run a processor body (a list of capability verbs) in order, collecting
handler invocations; an error aborts the rest, as an uncaught JS exception
would. -/
def runActions (currentName : String) (reg : JSMap SystemEntry) :
    List SysAction → Except String (JSMap SystemEntry × List Delivery)
  | [] => .ok (reg, [])
  | a :: rest =>
    match runAction currentName reg a with
    | .error e => .error e
    | .ok (reg1, d1) =>
      match runActions currentName reg1 rest with
      | .error e => .error e
      | .ok (reg2, d2) => .ok (reg2, d1 ++ d2)

/-- Invoke the processor of the system named `name`:
`systemRegistry[currentSystemName]!.systemProcessor(actions, time, delta)`.
The invocation itself is recorded in the returned name list. -/
def invoke (st : UniverseState) (name : String) (actions : List SysAction) :
    Except String (UniverseState × List String × List Delivery) :=
  match runActions name st.systemRegistry actions with
  | .error e => .error e
  | .ok (reg1, ds) => .ok ({ st with systemRegistry := reg1 }, [name], ds)

/-- One iteration of the `update` loop body for the system named `name`:
skip if frozen (before any schedule bookkeeping); otherwise, if scheduled,
either accumulate and skip (not due) or reset the accumulator and invoke
(due); an unscheduled system is invoked unconditionally.  A missing entry
is skipped (unreachable through the public API within a pass). -/
def stepSystem (st : UniverseState) (delta : Int) (name : String) :
    Except String (UniverseState × List String × List Delivery) :=
  match objGet st.systemRegistry name with
  | none => .ok (st, [], [])
  | some system =>
    if system.isFrozen then .ok (st, [], [])
    else
      match system.schedule with
      | some schedule =>
        let threshold : Int :=
          if schedule.seconds then schedule.x * 1000 else schedule.x - 1
        if schedule.timeSinceLastUpdate < threshold then
          let bumped : Schedule :=
            { schedule with timeSinceLastUpdate :=
                schedule.timeSinceLastUpdate +
                  (if schedule.seconds then delta else 1) }
          let entry1 : SystemEntry := { system with schedule := some bumped }
          .ok ({ st with systemRegistry := objSet st.systemRegistry name entry1 },
               [], [])
        else
          let reset : SystemEntry :=
            { system with schedule := some { schedule with timeSinceLastUpdate := 0 } }
          invoke { st with systemRegistry := objSet st.systemRegistry name reset }
            name system.processor
      | none => invoke st name system.processor

/-- Iterate the update-loop body over the list of system names captured at
the start of the pass (`typedKeys(systemRegistry)`), in order. -/
def runSystems (st : UniverseState) (delta : Int) :
    List String → Except String (UniverseState × List String × List Delivery)
  | [] => .ok (st, [], [])
  | n :: ns =>
    match stepSystem st delta n with
    | .error e => .error e
    | .ok (st1, i1, d1) =>
      match runSystems st1 delta ns with
      | .error e => .error e
      | .ok (st2, i2, d2) => .ok (st2, i1 ++ i2, d1 ++ d2)

/-- The outcome of one `update` call: the final state, the systems whose
processor was invoked (in invocation order) and the handler invocations. -/
structure UpdateResult where
  state : UniverseState
  invoked : List String
  delivered : List Delivery
deriving DecidableEq, Repr

/-- The `update(resetTime?)` method, with the ambient clock reading
(`performance.now()`) supplied as `now`.  Computes `delta`, advances the
timestamps, snapshots the key list of the system registry, and runs every
system through `stepSystem` in registration order. -/
def update (st : UniverseState) (now : Int) (resetTime : Bool) :
    Except String UpdateResult :=
  let createdAt := if resetTime then now else st.createdAt
  let delta := now - st.lastUpdateAt
  let st0 : UniverseState :=
    { st with createdAt := createdAt, lastUpdateAt := now }
  match runSystems st0 delta (st0.systemRegistry.map Prod.fst) with
  | .error e => .error e
  | .ok (st1, inv, ds) => .ok { state := st1, invoked := inv, delivered := ds }

/-- Run `n` consecutive updates, the clock advancing by `gap` per call,
recording for each update whether the system named `name` was invoked;
`none` if some update raised. -/
def invokedFlags (st : UniverseState) (name : String) (now gap : Int) :
    Nat → Option (List Bool)
  | 0 => some []
  | k + 1 =>
    match update st now false with
    | .error _ => none
    | .ok r =>
      match invokedFlags r.state name (now + gap) gap k with
      | none => none
      | some rest => some (r.invoked.contains name :: rest)

/-- Run `n` consecutive updates, the clock advancing by `gap` per call,
recording each update's handler invocations; `none` if some update
raised. -/
def deliveredLog (st : UniverseState) (now gap : Int) :
    Nat → Option (List (List Delivery))
  | 0 => some []
  | k + 1 =>
    match update st now false with
    | .error _ => none
    | .ok r =>
      match deliveredLog r.state (now + gap) gap k with
      | none => none
      | some rest => some (r.delivered :: rest)

/-! Basic lemmas about the JS object-map operations. -/

theorem objGet_objSet_self {α : Type} (m : JSMap α) (k : String) (v : α) :
    objGet (objSet m k v) k = some v := by
  induction m with
  | nil => simp [objSet, objGet]
  | cons p rest ih =>
    obtain ⟨k', v'⟩ := p
    by_cases h : k' = k
    · subst h; simp [objSet, objGet]
    · simp [objSet, objGet, h, ih]

theorem objGet_objSet_ne {α : Type} (m : JSMap α) (k k' : String) (v : α)
    (h : k' ≠ k) : objGet (objSet m k v) k' = objGet m k' := by
  induction m with
  | nil => simp [objSet, objGet, Ne.symm h]
  | cons p rest ih =>
    obtain ⟨k0, v0⟩ := p
    by_cases h0 : k0 = k
    · subst h0
      simp [objSet, objGet, Ne.symm h]
    · by_cases h1 : k0 = k'
      · subst h1; simp [objSet, objGet, h0]
      · simp [objSet, objGet, h0, h1, ih]

theorem objGet_objDelete_self {α : Type} (m : JSMap α) (k : String) :
    objGet (objDelete m k) k = none := by
  induction m with
  | nil => simp [objDelete, objGet]
  | cons p rest ih =>
    obtain ⟨k', v'⟩ := p
    by_cases h : k' = k
    · subst h; simp [objDelete, ih]
    · simp [objDelete, objGet, h, ih]

theorem objGet_objDelete_ne {α : Type} (m : JSMap α) (k k' : String)
    (h : k' ≠ k) : objGet (objDelete m k) k' = objGet m k' := by
  induction m with
  | nil => simp [objDelete]
  | cons p rest ih =>
    obtain ⟨k0, v0⟩ := p
    by_cases h0 : k0 = k
    · subst h0
      simp [objDelete, objGet, Ne.symm h, ih]
    · simp [objDelete, objGet, h0, ih]

theorem objSet_objGet_eq {α : Type} (m : JSMap α) (k : String) (v : α)
    (h : objGet m k = some v) : objSet m k v = m := by
  induction m with
  | nil => simp [objGet] at h
  | cons p rest ih =>
    obtain ⟨k', v'⟩ := p
    by_cases h0 : k' = k
    · subst h0
      simp [objGet] at h
      simp [objSet, h]
    · simp [objGet, h0] at h
      simp [objSet, h0, ih h]

theorem objDelete_objGet_none {α : Type} (m : JSMap α) (k : String)
    (h : objGet m k = none) : objDelete m k = m := by
  induction m with
  | nil => simp [objDelete]
  | cons p rest ih =>
    obtain ⟨k', v'⟩ := p
    by_cases h0 : k' = k
    · subst h0; simp [objGet] at h
    · simp [objGet, h0] at h
      simp [objDelete, h0, ih h]

theorem objSet_map_fst_none {α : Type} (m : JSMap α) (k : String) (v : α)
    (h : objGet m k = none) :
    (objSet m k v).map Prod.fst = m.map Prod.fst ++ [k] := by
  induction m with
  | nil => simp [objSet]
  | cons p rest ih =>
    obtain ⟨k', v'⟩ := p
    by_cases h0 : k' = k
    · subst h0; simp [objGet] at h
    · simp [objGet, h0] at h
      simp [objSet, h0, ih h]

theorem objGet_mem_keys {α : Type} (m : JSMap α) (k : String) (v : α)
    (h : objGet m k = some v) : k ∈ m.map Prod.fst := by
  induction m with
  | nil => simp [objGet] at h
  | cons p rest ih =>
    obtain ⟨k', v'⟩ := p
    by_cases h0 : k' = k
    · subst h0; simp
    · rw [objGet, if_neg h0] at h
      simp [ih h]

theorem mem_iff_objGet {α : Type} (m : JSMap α)
    (hnd : (m.map Prod.fst).Nodup) (k : String) (v : α) :
    (k, v) ∈ m ↔ objGet m k = some v := by
  induction m with
  | nil => simp [objGet]
  | cons p rest ih =>
    obtain ⟨k', v'⟩ := p
    simp only [List.map_cons, List.nodup_cons] at hnd
    obtain ⟨hk', hrest⟩ := hnd
    by_cases h0 : k' = k
    · subst h0
      rw [objGet, if_pos rfl]
      constructor
      · intro hm
        rcases List.mem_cons.mp hm with hm | hm
        · cases hm; rfl
        · exact absurd (List.mem_map_of_mem Prod.fst hm) (by simpa using hk')
      · intro hv
        rw [Option.some_inj] at hv
        subst hv
        exact List.mem_cons_self _ _
    · rw [objGet, if_neg h0, ← ih hrest]
      constructor
      · intro hm
        rcases List.mem_cons.mp hm with hm | hm
        · cases hm; exact absurd rfl h0
        · exact hm
      · exact List.mem_cons_of_mem _

/-! Lemmas about `createRegistryView`. -/

/-- A name in a satisfied query is attached with a truthy payload. -/
theorem viewMatches_objGet (e : Entity) (Q : List String) (c : String)
    (hm : viewMatches e Q = true) (hc : Q.contains c = true) :
    ∃ v, objGet e c = some v ∧ v.truthy = true := by
  rw [viewMatches, List.all_eq_true] at hm
  have hmem : c ∈ Q := by simpa using hc
  have ht := hm c hmem
  cases hg : objGet e c with
  | none => rw [hg] at ht; simp [JSValue.truthy] at ht
  | some v => rw [hg] at ht; exact ⟨v, rfl, ht⟩

/-- A key not among a map's keys reads as absent. -/
theorem objGet_eq_none {α : Type} (m : JSMap α) (k : String)
    (h : k ∉ m.map Prod.fst) : objGet m k = none := by
  cases hg : objGet m k with
  | none => rfl
  | some v => exact absurd (objGet_mem_keys m k v hg) h

/-- Reading a key off the copy loop of `viewRecord`, for an entity with
distinct keys: a queried attached key reads the entity's payload, any
other key reads the initial record. -/
theorem objGet_viewFold (Q : List String) (c : String) :
    ∀ (e : Entity) (init : JSMap JSValue), (e.map Prod.fst).Nodup →
      objGet
        (e.foldl
          (fun record kv =>
            if Q.contains kv.1 then objSet record kv.1 kv.2 else record)
          init) c =
        if Q.contains c = true ∧ (objGet e c).isSome = true then objGet e c
        else objGet init c := by
  intro e
  induction e with
  | nil => intro init _; simp [objGet]
  | cons kv rest ih =>
    obtain ⟨k, v⟩ := kv
    intro init hnd
    simp only [List.map_cons, List.nodup_cons] at hnd
    obtain ⟨hk, hrest⟩ := hnd
    simp only [List.foldl_cons]
    rw [ih _ hrest]
    by_cases hck : k = c
    · subst hck
      have hnone : objGet rest k = none := objGet_eq_none rest k hk
      rw [hnone, objGet, if_pos rfl]
      have hno : ¬(Q.contains k = true ∧
          (none : Option JSValue).isSome = true) := fun h => by
        simpa using h.2
      rw [if_neg hno]
      by_cases hq : Q.contains k = true
      · have hyes : Q.contains k = true ∧
            (some v : Option JSValue).isSome = true := ⟨hq, rfl⟩
        rw [if_pos hq, if_pos hyes, objGet_objSet_self]
      · have hno2 : ¬(Q.contains k = true ∧
            (some v : Option JSValue).isSome = true) := fun h => hq h.1
        rw [if_neg hq, if_neg hno2]
    · rw [objGet, if_neg hck]
      by_cases hA : Q.contains c = true ∧ (objGet rest c).isSome = true
      · rw [if_pos hA, if_pos hA]
      · rw [if_neg hA, if_neg hA]
        by_cases hq : Q.contains k = true
        · rw [if_pos hq, objGet_objSet_ne init k c v (fun hh => hck hh.symm)]
        · rw [if_neg hq]

/-- The content of a yielded record, for a matching entity with distinct
keys: under each queried name the entity's payload (including a queried
component literally named "uuid", which then replaces the id), under
"uuid" otherwise the entity id, and nothing else. -/
theorem objGet_viewRecord (uuid : String) (e : Entity) (Q : List String)
    (hnd : (e.map Prod.fst).Nodup) (hm : viewMatches e Q = true)
    (c : String) :
    objGet (viewRecord uuid e Q) c =
      if Q.contains c = true then objGet e c
      else if c = "uuid" then some (JSValue.str uuid) else none := by
  rw [viewRecord, objGet_viewFold Q c e _ hnd]
  by_cases hq : Q.contains c = true
  · obtain ⟨v, hg, -⟩ := viewMatches_objGet e Q c hm hq
    have hyes : Q.contains c = true ∧ (objGet e c).isSome = true :=
      ⟨hq, by rw [hg]; rfl⟩
    rw [if_pos hyes, if_pos hq]
  · have hno : ¬(Q.contains c = true ∧ (objGet e c).isSome = true) :=
      fun h => hq h.1
    rw [if_neg hno, if_neg hq]
    by_cases hu : c = "uuid"
    · subst hu
      rw [objGet, if_pos rfl, if_pos rfl]
    · rw [if_neg hu, objGet, if_neg (fun hh => hu hh.symm), objGet]

/-- `createRegistryView` is exactly the per-entity filter by `viewMatches`
followed by record construction, in registry order. -/
theorem createRegistryView_eq (registry : EntityRegistry) (Q : List String) :
    createRegistryView registry Q =
      (registry.filter fun p => viewMatches p.2 Q).map
        fun p => viewRecord p.1 p.2 Q := by
  induction registry with
  | nil => rfl
  | cons p rest ih =>
    obtain ⟨u, e⟩ := p
    by_cases hm : viewMatches e Q
    · rw [createRegistryView, if_pos hm, List.filter_cons,
          if_pos (by simpa using hm), List.map_cons, ih]
    · rw [createRegistryView, if_neg hm, List.filter_cons,
          if_neg (by simpa using hm), ih]

/-- An entity appears among the matching (record-yielding) entries iff it
is registered and satisfies the query, for a registry with distinct
uuids. -/
theorem view_yield_iff (registry : EntityRegistry) (Q : List String)
    (E : String) (hnd : (registry.map Prod.fst).Nodup) :
    (∃ p, p ∈ registry.filter (fun p => viewMatches p.2 Q) ∧ p.1 = E) ↔
      ∃ e, objGet registry E = some e ∧ viewMatches e Q = true := by
  constructor
  · rintro ⟨⟨u, e⟩, hp, rfl⟩
    rw [List.mem_filter] at hp
    exact ⟨e, (mem_iff_objGet registry hnd u e).mp hp.1, hp.2⟩
  · rintro ⟨e, hg, hm⟩
    refine ⟨(E, e), ?_, rfl⟩
    rw [List.mem_filter]
    exact ⟨(mem_iff_objGet registry hnd E e).mpr hg, hm⟩

/-! Lemmas about the update loop. -/

theorem invoke_invoked (st : UniverseState) (name : String)
    (acts : List SysAction) (st' : UniverseState) (i : List String)
    (d : List Delivery) (h : invoke st name acts = .ok (st', i, d)) :
    i = [name] := by
  unfold invoke at h
  cases hr : runActions name st.systemRegistry acts with
  | error e => rw [hr] at h; cases h
  | ok p =>
    obtain ⟨reg1, ds⟩ := p
    rw [hr] at h
    cases h
    rfl

theorem stepSystem_invoked (st : UniverseState) (delta : Int) (name : String)
    (st1 : UniverseState) (i1 : List String) (d1 : List Delivery)
    (h : stepSystem st delta name = .ok (st1, i1, d1)) :
    i1 = [] ∨ i1 = [name] := by
  cases hg : objGet st.systemRegistry name with
  | none =>
    simp [stepSystem, hg] at h
    exact Or.inl h.2.1
  | some system =>
    by_cases hf : system.isFrozen = true
    · simp [stepSystem, hg, hf] at h
      exact Or.inl h.2.1
    · cases hs : system.schedule with
      | none =>
        simp [stepSystem, hg, hf, hs] at h
        exact Or.inr (invoke_invoked _ _ _ _ _ _ h)
      | some schedule =>
        by_cases hd : schedule.timeSinceLastUpdate <
            (if schedule.seconds = true then schedule.x * 1000
             else schedule.x - 1)
        · simp [stepSystem, hg, hf, hs, hd] at h
          exact Or.inl h.2.1
        · simp [stepSystem, hg, hf, hs, hd] at h
          exact Or.inr (invoke_invoked _ _ _ _ _ _ h)

theorem runSystems_invoked_sublist (delta : Int) (ns : List String) :
    ∀ (st st' : UniverseState) (i : List String) (d : List Delivery),
      runSystems st delta ns = .ok (st', i, d) → i.Sublist ns := by
  induction ns with
  | nil =>
    intro st st' i d h
    cases h
    exact List.Sublist.refl []
  | cons n rest ih =>
    intro st st' i d h
    cases h1 : stepSystem st delta n with
    | error e => simp [runSystems, h1] at h
    | ok p1 =>
      obtain ⟨st1, i1, d1⟩ := p1
      cases h2 : runSystems st1 delta rest with
      | error e => simp [runSystems, h1, h2] at h
      | ok p2 =>
        obtain ⟨st2, i2, d2⟩ := p2
        simp [runSystems, h1, h2] at h
        obtain ⟨-, hi, -⟩ := h
        subst hi
        rcases stepSystem_invoked st delta n st1 i1 d1 h1 with h0 | h0 <;>
          subst h0
        · exact List.Sublist.cons n (ih st1 st2 i2 d2 h2)
        · exact List.Sublist.cons₂ n (ih st1 st2 i2 d2 h2)

theorem update_invoked_sublist (st : UniverseState) (now : Int)
    (resetTime : Bool) (r : UpdateResult) (h : update st now resetTime = .ok r) :
    r.invoked.Sublist (st.systemRegistry.map Prod.fst) := by
  cases hr : runSystems { st with
      createdAt := if resetTime then now else st.createdAt,
      lastUpdateAt := now } (now - st.lastUpdateAt)
      (st.systemRegistry.map Prod.fst) with
  | error e => simp [update, hr] at h
  | ok p =>
    obtain ⟨st1, inv, ds⟩ := p
    simp [update, hr] at h
    subst h
    exact runSystems_invoked_sublist _ _ _ _ _ _ hr

/-! Concrete fixtures used by counterexamples and witnesses. -/

/-- A universe holding no entities and no systems. -/
def emptyState : UniverseState :=
  { entityRegistry := [], systemRegistry := [], createdAt := 0,
    lastUpdateAt := 0 }

/-- Extract a system's schedule accumulator, if the system exists and is
scheduled. -/
def accumulatorOf (st : UniverseState) (name : String) : Option Int :=
  match objGet st.systemRegistry name with
  | none => none
  | some entry =>
    match entry.schedule with
    | none => none
    | some sch => some sch.timeSinceLastUpdate

/-! Claim C2: handleCommand delivery. -/

/-- C2 counterexample: a pending payload that is falsy (the number 0) is
held in the queue under "c", yet `handleCommand` neither invokes the
handler nor removes the entry, because the source guards with
`!system.commandQueue[command]` (JS truthiness), not key presence. -/
theorem c2_counterexample :
    objGet [("c", JSValue.num 0)] "c" = some (JSValue.num 0) ∧
    handleCommand [("c", JSValue.num 0)] "c" =
      ([("c", JSValue.num 0)], none) := by
  constructor
  · rfl
  · rfl

/-- C2 (amended): if the currently executing system's queue holds a
JS-truthy payload under `c`, `handleCommand` invokes the handler with that
payload exactly once and removes `c` from the queue; if `c` is absent it
is a no-op (and the function is total, so it never raises); after a
successful delivery a second `handleCommand` for the same name is a
no-op, so each payload is delivered at most once. -/
theorem c2_handle_command (queue : JSMap JSValue) (c : String) :
    (∀ v, objGet queue c = some v → v.truthy = true →
      handleCommand queue c = (objDelete queue c, some v)) ∧
    (objGet queue c = none → handleCommand queue c = (queue, none)) ∧
    (∀ v, objGet queue c = some v → v.truthy = true →
      handleCommand (handleCommand queue c).1 c =
        ((handleCommand queue c).1, none)) := by
  refine ⟨?_, ?_, ?_⟩
  · intro v hg ht
    simp [handleCommand, hg, ht]
  · intro hg
    simp [handleCommand, hg, JSValue.truthy]
  · intro v hg ht
    have h1 : handleCommand queue c = (objDelete queue c, some v) := by
      simp [handleCommand, hg, ht]
    rw [h1]
    simp [handleCommand, objGet_objDelete_self, JSValue.truthy]

/-- C2 witness: a truthy payload is delivered and removed, an absent name
is a no-op, and redelivery is impossible, at a concrete queue. -/
theorem c2_handle_command_witness :
    (handleCommand [("c", JSValue.num 7)] "c" =
      (objDelete [("c", JSValue.num 7)] "c", some (JSValue.num 7))) ∧
    (handleCommand [("c", JSValue.num 7)] "x" =
      ([("c", JSValue.num 7)], none)) ∧
    (handleCommand (handleCommand [("c", JSValue.num 7)] "c").1 "c" =
      ((handleCommand [("c", JSValue.num 7)] "c").1, none)) :=
  ⟨(c2_handle_command [("c", JSValue.num 7)] "c").1 (JSValue.num 7) rfl rfl,
   (c2_handle_command [("c", JSValue.num 7)] "x").2.1 rfl,
   (c2_handle_command [("c", JSValue.num 7)] "c").2.2 (JSValue.num 7) rfl rfl⟩

/-! Claim C5: cloneEntity. -/

/-- C5 counterexample: cloning an id that is not registered does not raise
`UnknownEntity`; the source returns `{...undefined}`, i.e. the empty
snapshot, for the unknown id "x" in an empty universe (`cloneEntity` is a
total function in the embedding exactly because the source has no guard
and cannot throw). -/
theorem c5_counterexample :
    objGet emptyState.entityRegistry "x" = none ∧
    cloneEntity emptyState "x" = [] := ⟨rfl, rfl⟩

/-- C5 (amended): `cloneEntity` never raises; for an unregistered id it
returns the empty snapshot, and for a registered id it returns the
entity's current component mapping (a shallow top-level copy, so later
registry mutation cannot affect it; payload values are shared by
reference). -/
theorem c5_clone_entity (st : UniverseState) (uuid : String) :
    (objGet st.entityRegistry uuid = none → cloneEntity st uuid = []) ∧
    (∀ e, objGet st.entityRegistry uuid = some e → cloneEntity st uuid = e) := by
  constructor
  · intro hg; simp [cloneEntity, hg]
  · intro e hg; simp [cloneEntity, hg]

/-- C5 witness: both branches at concrete states. -/
theorem c5_clone_entity_witness :
    cloneEntity emptyState "x" = [] ∧
    cloneEntity
      { emptyState with entityRegistry := [("e", [("a", JSValue.num 1)])] }
      "e" = [("a", JSValue.num 1)] :=
  ⟨(c5_clone_entity emptyState "x").1 rfl,
   (c5_clone_entity
      { emptyState with entityRegistry := [("e", [("a", JSValue.num 1)])] }
      "e").2 [("a", JSValue.num 1)] rfl⟩

/-! Claim C7: sendCommand. -/

/-- C7 (confirmed): `sendCommand` raises the registry error ("unknown
system") when the target is not registered, and otherwise stores the
payload under the command name in the target's queue, overwriting any
unconsumed prior payload for that name (the stored value afterwards is
exactly `data`). -/
theorem c7_send_command (reg : JSMap SystemEntry) (target command : String)
    (data : JSValue) :
    (objGet reg target = none →
      sendCommand reg target command data =
        Except.error
          "ECS Registry Error: Attempted to send command to nonexistent system") ∧
    (∀ entry, objGet reg target = some entry →
      sendCommand reg target command data =
        Except.ok (objSet reg target { entry with
          commandQueue := objSet entry.commandQueue command data }) ∧
      objGet (objSet entry.commandQueue command data) command = some data) := by
  constructor
  · intro hg
    simp [sendCommand, hg, registryError]
  · intro entry hg
    exact ⟨by simp [sendCommand, hg], objGet_objSet_self _ _ _⟩

/-- A fixture system entry with one pending command payload. -/
def entryB : SystemEntry :=
  { isFrozen := false, commandQueue := [("c", JSValue.num 1)],
    schedule := none, processor := [] }

/-- C7 witness: the error branch for an unregistered target, and the
store-and-overwrite branch for the registered system "B". -/
theorem c7_send_command_witness :
    (sendCommand [] "ghost" "c" (JSValue.num 1) =
      Except.error
        "ECS Registry Error: Attempted to send command to nonexistent system") ∧
    (sendCommand [("B", entryB)] "B" "c" (JSValue.num 2) =
      Except.ok (objSet [("B", entryB)] "B" { entryB with
        commandQueue := objSet entryB.commandQueue "c" (JSValue.num 2) }) ∧
      objGet (objSet entryB.commandQueue "c" (JSValue.num 2)) "c" =
        some (JSValue.num 2)) :=
  ⟨(c7_send_command [] "ghost" "c" (JSValue.num 1)).1 rfl,
   (c7_send_command [("B", entryB)] "B" "c" (JSValue.num 2)).2 entryB rfl⟩

/-! Claim C8: detachComponent. -/

/-- C8 (confirmed): `detachComponent` raises the registry error ("unknown
entity") for an unregistered id; for a registered id with the name not
attached it is a silent no-op returning the state unchanged; for a
registered id with the name attached it removes exactly that component,
leaving the entity's other components, all other entities, and the system
registry untouched. -/
theorem c8_detach_component (st : UniverseState) (uuid name : String) :
    (objGet st.entityRegistry uuid = none →
      detachComponent st uuid name =
        Except.error
          "ECS Registry Error: Attempted to detach component from nonexistent entity") ∧
    (∀ e, objGet st.entityRegistry uuid = some e → objGet e name = none →
      detachComponent st uuid name = Except.ok st) ∧
    (∀ e, objGet st.entityRegistry uuid = some e →
      ∃ st', detachComponent st uuid name = Except.ok st' ∧
        objGet st'.entityRegistry uuid = some (objDelete e name) ∧
        objGet (objDelete e name) name = none ∧
        (∀ n, n ≠ name → objGet (objDelete e name) n = objGet e n) ∧
        (∀ u, u ≠ uuid → objGet st'.entityRegistry u = objGet st.entityRegistry u) ∧
        st'.systemRegistry = st.systemRegistry) := by
  refine ⟨?_, ?_, ?_⟩
  · intro hg
    simp [detachComponent, hg, registryError]
  · intro e hg hn
    have h1 : objDelete e name = e := objDelete_objGet_none e name hn
    have h2 : objSet st.entityRegistry uuid e = st.entityRegistry :=
      objSet_objGet_eq _ _ _ hg
    simp [detachComponent, hg, h1, h2]
  · intro e hg
    refine ⟨{ st with
                entityRegistry := objSet st.entityRegistry uuid (objDelete e name) },
      by simp [detachComponent, hg], ?_, ?_, ?_, ?_, rfl⟩
    · exact objGet_objSet_self _ _ _
    · exact objGet_objDelete_self _ _
    · intro n hn; exact objGet_objDelete_ne _ _ _ hn
    · intro u hu; exact objGet_objSet_ne _ _ _ _ hu

/-- C8 witness: all three branches at concrete states. -/
theorem c8_detach_component_witness :
    (detachComponent emptyState "ghost" "a" =
      Except.error
        "ECS Registry Error: Attempted to detach component from nonexistent entity") ∧
    (detachComponent
      { emptyState with entityRegistry := [("e", [("a", JSValue.num 1)])] }
      "e" "b" =
      Except.ok
        { emptyState with entityRegistry := [("e", [("a", JSValue.num 1)])] }) ∧
    (∃ st', detachComponent
        { emptyState with entityRegistry := [("e", [("a", JSValue.num 1)])] }
        "e" "a" = Except.ok st' ∧
      objGet st'.entityRegistry "e" =
        some (objDelete [("a", JSValue.num 1)] "a") ∧
      objGet (objDelete [("a", JSValue.num 1)] "a") "a" = none ∧
      (∀ n, n ≠ "a" →
        objGet (objDelete [("a", JSValue.num 1)] "a") n =
          objGet [("a", JSValue.num 1)] n) ∧
      (∀ u, u ≠ "e" →
        objGet st'.entityRegistry u =
          objGet
            ({ emptyState with
                entityRegistry := [("e", [("a", JSValue.num 1)])] }).entityRegistry
            u) ∧
      st'.systemRegistry =
        ({ emptyState with
            entityRegistry := [("e", [("a", JSValue.num 1)])] }).systemRegistry) :=
  ⟨(c8_detach_component emptyState "ghost" "a").1 rfl,
   (c8_detach_component
      { emptyState with entityRegistry := [("e", [("a", JSValue.num 1)])] }
      "e" "b").2.1 [("a", JSValue.num 1)] rfl rfl,
   (c8_detach_component
      { emptyState with entityRegistry := [("e", [("a", JSValue.num 1)])] }
      "e" "a").2.2 [("a", JSValue.num 1)] rfl⟩

/-! Claim C10: attachComponent frame effect. -/

/-- C10 (confirmed): for a registered entity, `attachComponent` succeeds
and modifies only the component stored under `name` for that entity:
the new payload is stored, the entity's other components are unchanged,
every other entity is unchanged, and the system registry and both
timestamps are unchanged. -/
theorem c10_attach_frame (st : UniverseState) (uuid name : String)
    (data : JSValue) (e : Entity)
    (hg : objGet st.entityRegistry uuid = some e) :
    ∃ st', attachComponent st uuid name data = Except.ok st' ∧
      objGet st'.entityRegistry uuid = some (objSet e name data) ∧
      objGet (objSet e name data) name = some data ∧
      (∀ n, n ≠ name → objGet (objSet e name data) n = objGet e n) ∧
      (∀ u, u ≠ uuid → objGet st'.entityRegistry u = objGet st.entityRegistry u) ∧
      st'.systemRegistry = st.systemRegistry ∧
      st'.createdAt = st.createdAt ∧ st'.lastUpdateAt = st.lastUpdateAt := by
  refine ⟨{ st with
              entityRegistry := objSet st.entityRegistry uuid (objSet e name data) },
    by simp [attachComponent, hg], ?_, ?_, ?_, ?_, rfl, rfl, rfl⟩
  · exact objGet_objSet_self _ _ _
  · exact objGet_objSet_self _ _ _
  · intro n hn; exact objGet_objSet_ne _ _ _ _ hn
  · intro u hu; exact objGet_objSet_ne _ _ _ _ hu

/-- C10 witness: attach a second component to a concrete entity and check
every frame condition. -/
theorem c10_attach_frame_witness :
    ∃ st', attachComponent
        { emptyState with entityRegistry := [("e", [("a", JSValue.num 1)])] }
        "e" "b" (JSValue.num 2) = Except.ok st' ∧
      objGet st'.entityRegistry "e" =
        some (objSet [("a", JSValue.num 1)] "b" (JSValue.num 2)) ∧
      objGet (objSet [("a", JSValue.num 1)] "b" (JSValue.num 2)) "b" =
        some (JSValue.num 2) ∧
      (∀ n, n ≠ "b" →
        objGet (objSet [("a", JSValue.num 1)] "b" (JSValue.num 2)) n =
          objGet [("a", JSValue.num 1)] n) ∧
      (∀ u, u ≠ "e" →
        objGet st'.entityRegistry u =
          objGet
            ({ emptyState with
                entityRegistry := [("e", [("a", JSValue.num 1)])] }).entityRegistry
            u) ∧
      st'.systemRegistry =
        ({ emptyState with
            entityRegistry := [("e", [("a", JSValue.num 1)])] }).systemRegistry ∧
      st'.createdAt =
        ({ emptyState with
            entityRegistry := [("e", [("a", JSValue.num 1)])] }).createdAt ∧
      st'.lastUpdateAt =
        ({ emptyState with
            entityRegistry := [("e", [("a", JSValue.num 1)])] }).lastUpdateAt :=
  c10_attach_frame
    { emptyState with entityRegistry := [("e", [("a", JSValue.num 1)])] }
    "e" "b" (JSValue.num 2) [("a", JSValue.num 1)] rfl

/-! Claim C1: view filter correctness. -/

/-- C1 counterexample, two parts.  First, the entity "e" has the component
"a" attached (its stored payload is the number 0), yet `createRegistryView`
over the query `["a"]` yields no record for it, because the filter is
`components.every(value => !!entity[value])` — JS truthiness of the
payload, not attachment.  Second, the entity "e2" has a truthy component
literally named "uuid"; querying `["uuid"]` yields the single-object
record `{uuid: 5}`: the copy loop wrote the payload over the entity id,
so the yielded record does not contain the id at all. -/
theorem c1_counterexample :
    (objGet [("a", JSValue.num 0)] "a" = some (JSValue.num 0) ∧
     createRegistryView [("e", [("a", JSValue.num 0)])] ["a"] = []) ∧
    createRegistryView [("e2", [("uuid", JSValue.num 5)])] ["uuid"] =
      [[("uuid", JSValue.num 5)]] :=
  ⟨⟨rfl, rfl⟩, rfl⟩

/-- C1 (amended): `view(Q)` and a system's `createView(Q)` share the body
`createRegistryView` (first conjunct), which yields, in registry order,
exactly one record per matching registry entry (second conjunct); for a
registry with distinct uuids, an entity E is among the matching,
record-yielding entries iff E is registered and every name in Q is
attached to it *with a JS-truthy payload* (third conjunct); and each
yielded record is a single JS object holding, under every name in Q, that
entity's payload, under "uuid" the entity id — unless "uuid" is itself a
queried name, in which case the component payload has overwritten the id
— and nothing under any other key (fourth conjunct). -/
theorem c1_view_filter :
    (∀ (st : UniverseState) (Q : List String),
      universeView st Q = createRegistryView st.entityRegistry Q ∧
      actionCreateView st Q = createRegistryView st.entityRegistry Q) ∧
    (∀ (registry : EntityRegistry) (Q : List String),
      createRegistryView registry Q =
        (registry.filter fun p => viewMatches p.2 Q).map
          fun p => viewRecord p.1 p.2 Q) ∧
    (∀ (registry : EntityRegistry) (Q : List String) (E : String),
      (registry.map Prod.fst).Nodup →
      ((∃ p, p ∈ registry.filter (fun p => viewMatches p.2 Q) ∧ p.1 = E) ↔
        ∃ e, objGet registry E = some e ∧ viewMatches e Q = true)) ∧
    (∀ (uuid : String) (e : Entity) (Q : List String),
      (e.map Prod.fst).Nodup → viewMatches e Q = true →
      ∀ c, objGet (viewRecord uuid e Q) c =
        if Q.contains c = true then objGet e c
        else if c = "uuid" then some (JSValue.str uuid) else none) :=
  ⟨fun _ _ => ⟨rfl, rfl⟩, createRegistryView_eq, view_yield_iff,
   objGet_viewRecord⟩

/-- C1 witness: in a registry with one entity "e1" carrying a truthy "a"
and a "b" outside the query, the yield-iff holds, and the record built for
"e1" reads "a" as the payload, "uuid" as the id, and "b" as absent. -/
theorem c1_view_filter_witness :
    ((∃ p, p ∈ List.filter (fun p => viewMatches p.2 ["a"])
        [("e1", [("a", JSValue.num 1), ("b", JSValue.num 2)])] ∧
      p.1 = "e1") ↔
      ∃ e, objGet [("e1", [("a", JSValue.num 1), ("b", JSValue.num 2)])]
          "e1" = some e ∧ viewMatches e ["a"] = true) ∧
    (∀ c, objGet
        (viewRecord "e1" [("a", JSValue.num 1), ("b", JSValue.num 2)] ["a"])
        c =
      if List.contains ["a"] c = true
      then objGet [("a", JSValue.num 1), ("b", JSValue.num 2)] c
      else if c = "uuid" then some (JSValue.str "e1") else none) :=
  ⟨c1_view_filter.2.2.1
     [("e1", [("a", JSValue.num 1), ("b", JSValue.num 2)])] ["a"] "e1"
     (by decide),
   c1_view_filter.2.2.2 "e1" [("a", JSValue.num 1), ("b", JSValue.num 2)]
     ["a"] (by decide) (by decide)⟩

/-! Claim C3: frozen systems and schedule bookkeeping. -/

/-- A fixture: the system "s" is frozen and scheduled with an accumulator
of 0 (it just ran, then was frozen). -/
def frozenScheduled : UniverseState :=
  { entityRegistry := [],
    systemRegistry := [("s",
      { isFrozen := true, commandQueue := [],
        schedule := some { x := 3, seconds := false,
                           timeSinceLastUpdate := 0 },
        processor := [] })],
    createdAt := 0, lastUpdateAt := 0 }

/-- C3 counterexample: updating a universe whose only system is frozen and
scheduled does not invoke it — and does *not* grow the schedule's elapsed
accumulator: it stays at 0 instead of growing to 1, because the source
hits `if (system.isFrozen) continue;` before any schedule bookkeeping. -/
theorem c3_counterexample :
    accumulatorOf frozenScheduled "s" = some 0 ∧
    (match update frozenScheduled 1 false with
     | .error _ => none
     | .ok r => some (r.invoked, accumulatorOf r.state "s")) =
      some ([], some 0) :=
  ⟨rfl, rfl⟩

/-- C3 (amended): a frozen system is skipped entirely, with *no* schedule
bookkeeping at all: `stepSystem` returns the state unchanged (in
particular, a frozen scheduled system's elapsed accumulator does not
change on the updates on which it is skipped) and the processor is not
invoked. -/
theorem c3_frozen_skip (st : UniverseState) (delta : Int) (name : String)
    (entry : SystemEntry) (hg : objGet st.systemRegistry name = some entry)
    (hf : entry.isFrozen = true) :
    stepSystem st delta name = Except.ok (st, [], []) := by
  simp [stepSystem, hg, hf]

/-- C3 witness: the frozen fixture is skipped with the state unchanged. -/
theorem c3_frozen_skip_witness :
    stepSystem frozenScheduled 1 "s" = Except.ok (frozenScheduled, [], []) :=
  c3_frozen_skip frozenScheduled 1 "s"
    { isFrozen := true, commandQueue := [],
      schedule := some { x := 3, seconds := false, timeSinceLastUpdate := 0 },
      processor := [] } rfl rfl

/-! Claim C4: schedule due-ness and cadence. -/

/-- A fixture: the system "s" scheduled every 3 updates, freshly scheduled
(accumulator at Number.MAX_SAFE_INTEGER), empty processor. -/
def cadenceState : UniverseState :=
  { entityRegistry := [],
    systemRegistry := [("s",
      { isFrozen := false, commandQueue := [],
        schedule := some { x := 3, seconds := false,
                           timeSinceLastUpdate := maxSafeInteger },
        processor := [] })],
    createdAt := 0, lastUpdateAt := 0 }

/-- A fixture schedule mid-interval: 0 of 3 updates accumulated. -/
def midSchedule : Schedule :=
  { x := 3, seconds := false, timeSinceLastUpdate := 0 }

/-- A fixture entry carrying `midSchedule`. -/
def midEntry : SystemEntry :=
  { isFrozen := false, commandQueue := [], schedule := some midSchedule,
    processor := [] }

/-- A fixture universe whose only system "s" carries `midSchedule`. -/
def midState : UniverseState :=
  { entityRegistry := [], systemRegistry := [("s", midEntry)],
    createdAt := 0, lastUpdateAt := 0 }

/-- C4 (confirmed): for a non-frozen scheduled system, due-ness on each
update is `accumulator ≥ interval * 1000` for seconds-mode and
`accumulator ≥ interval - 1` for updates-mode (the negation of the
source's `timeSinceLastUpdate < threshold`): when not due, the accumulator
grows by `delta` (seconds) or 1 (updates) and the processor is skipped;
when due, the accumulator resets to 0 and the processor is invoked.
Because a fresh schedule starts at Number.MAX_SAFE_INTEGER (maximally
overdue), a system scheduled with interval 3, unit "updates" runs on
update 1 and then on updates 4, 7, 10 — not on the two updates in
between. -/
theorem c4_schedule_dueness :
    (∀ (st : UniverseState) (name : String) (system : SystemEntry)
       (schedule : Schedule) (delta : Int),
      objGet st.systemRegistry name = some system →
      system.isFrozen = false →
      system.schedule = some schedule →
      schedule.timeSinceLastUpdate <
        (if schedule.seconds = true then schedule.x * 1000
         else schedule.x - 1) →
      stepSystem st delta name =
        Except.ok ({ st with
          systemRegistry := objSet st.systemRegistry name { system with
            schedule := some { schedule with
              timeSinceLastUpdate := schedule.timeSinceLastUpdate +
                (if schedule.seconds = true then delta else 1) } } },
          [], [])) ∧
    (∀ (st : UniverseState) (name : String) (system : SystemEntry)
       (schedule : Schedule) (delta : Int),
      objGet st.systemRegistry name = some system →
      system.isFrozen = false →
      system.schedule = some schedule →
      (if schedule.seconds = true then schedule.x * 1000
       else schedule.x - 1) ≤ schedule.timeSinceLastUpdate →
      stepSystem st delta name =
        invoke { st with
          systemRegistry := objSet st.systemRegistry name { system with
            schedule := some { schedule with timeSinceLastUpdate := 0 } } }
          name system.processor) ∧
    invokedFlags cadenceState "s" 1 1 10 =
      some [true, false, false, true, false, false, true, false, false,
            true] := by
  refine ⟨?_, ?_, by decide⟩
  · intro st name system schedule delta hg hf hs hd
    simp [stepSystem, hg, hf, hs, hd]
  · intro st name system schedule delta hg hf hs hth
    simp [stepSystem, hg, hf, hs, not_lt.mpr hth]

/-- C4 witness: the not-due branch accumulates by one update at the
mid-interval fixture, and the due branch fires at the freshly scheduled
fixture. -/
theorem c4_schedule_dueness_witness :
    (stepSystem midState 1 "s" =
      Except.ok ({ midState with
        systemRegistry := objSet midState.systemRegistry "s" { midEntry with
          schedule := some { midSchedule with
            timeSinceLastUpdate := midSchedule.timeSinceLastUpdate +
              (if midSchedule.seconds = true then 1 else 1) } } },
        [], [])) ∧
    (stepSystem cadenceState 1 "s" =
      invoke { cadenceState with
        systemRegistry := objSet cadenceState.systemRegistry "s"
          { isFrozen := false, commandQueue := [],
            schedule := some { x := 3, seconds := false,
                               timeSinceLastUpdate := 0 },
            processor := [] } }
        "s" [] ) :=
  ⟨c4_schedule_dueness.1 midState "s" midEntry midSchedule 1 rfl rfl rfl
     (by decide),
   c4_schedule_dueness.2.1 cadenceState "s"
     { isFrozen := false, commandQueue := [],
       schedule := some { x := 3, seconds := false,
                          timeSinceLastUpdate := maxSafeInteger },
       processor := [] }
     { x := 3, seconds := false, timeSinceLastUpdate := maxSafeInteger }
     1 rfl rfl rfl (by decide)⟩

/-! Claim C6: registration order and command visibility timing. -/

/-- A fixture system that sends the command "c" with payload 7 to "B". -/
def senderEntry : SystemEntry :=
  { isFrozen := false, commandQueue := [], schedule := none,
    processor := [SysAction.sendCommand "B" "c" (JSValue.num 7)] }

/-- A fixture system "B" that handles the command "c". -/
def recvEntry : SystemEntry :=
  { isFrozen := false, commandQueue := [], schedule := none,
    processor := [SysAction.handleCommand "c"] }

/-- The sender "A" registered before the receiver "B". -/
def stateAB : UniverseState :=
  { entityRegistry := [], systemRegistry := [("A", senderEntry), ("B", recvEntry)],
    createdAt := 0, lastUpdateAt := 0 }

/-- The receiver "B" registered before the sender "A". -/
def stateBA : UniverseState :=
  { entityRegistry := [], systemRegistry := [("B", recvEntry), ("A", senderEntry)],
    createdAt := 0, lastUpdateAt := 0 }

/-- C6 (confirmed): every `update` invokes processors as an in-order
sublist of the system registry's key order; registering a new system
appends its name at the end of that order (so key order is registration
order); when the sender is registered before the receiver the payload is
delivered within the same update; when the receiver is registered first,
the first update delivers nothing and the second update delivers the
payload. -/
theorem c6_update_order :
    (∀ (st : UniverseState) (now : Int) (resetTime : Bool) (r : UpdateResult),
      update st now resetTime = Except.ok r →
      r.invoked.Sublist (st.systemRegistry.map Prod.fst)) ∧
    (∀ (st : UniverseState) (name : String) (proc : List SysAction),
      objGet st.systemRegistry name = none →
      ∃ st', registerSystem st name proc = Except.ok st' ∧
        st'.systemRegistry.map Prod.fst =
          st.systemRegistry.map Prod.fst ++ [name]) ∧
    deliveredLog stateAB 1 1 1 = some [[("B", "c", JSValue.num 7)]] ∧
    deliveredLog stateBA 1 1 2 = some [[], [("B", "c", JSValue.num 7)]] := by
  refine ⟨update_invoked_sublist, ?_, by decide, by decide⟩
  intro st name proc hg
  refine ⟨{ st with
      systemRegistry := objSet st.systemRegistry name
        { isFrozen := false, commandQueue := [], schedule := none,
          processor := proc } },
    by simp [registerSystem, hg], ?_⟩
  exact objSet_map_fst_none _ _ _ hg

/-- C6 witness: the order sublist at a concrete successful update of the
empty universe, and the registration append at the empty universe. -/
theorem c6_update_order_witness :
    List.Sublist
      (UpdateResult.invoked
        { state := emptyState, invoked := [], delivered := [] })
      (emptyState.systemRegistry.map Prod.fst) ∧
    (∃ st', registerSystem emptyState "A" [] = Except.ok st' ∧
      st'.systemRegistry.map Prod.fst =
        emptyState.systemRegistry.map Prod.fst ++ ["A"]) :=
  ⟨c6_update_order.1 emptyState 0 false
     { state := emptyState, invoked := [], delivered := [] } rfl,
   c6_update_order.2.1 emptyState "A" [] rfl⟩

/-! Claim C9: re-scheduling resets the accumulator. -/

/-- A fixture entry mid-way through an existing schedule (1 of 2 updates
accumulated). -/
def preEntry : SystemEntry :=
  { isFrozen := false, commandQueue := [],
    schedule := some { x := 2, seconds := false, timeSinceLastUpdate := 1 },
    processor := [] }

/-- A fixture universe whose only system "s" carries `preEntry`. -/
def preScheduled : UniverseState :=
  { entityRegistry := [], systemRegistry := [("s", preEntry)],
    createdAt := 0, lastUpdateAt := 0 }

/-- C9 counterexample: re-schedule the mid-interval system "s" as "every
2^51 seconds".  The accumulator is reset to Number.MAX_SAFE_INTEGER, but
the new threshold 2^51 * 1000 exceeds it, so at the next opportunity the
system is *not* invoked — the accumulator just grows by delta — refuting
"due at its very next non-frozen opportunity regardless". -/
theorem c9_counterexample :
    (match scheduleSystem preScheduled "s" (2 ^ 51) ScheduleUnit.seconds with
     | .error _ => none
     | .ok st1 =>
       match stepSystem st1 1 "s" with
       | .error _ => none
       | .ok (st2, inv, _) => some (inv, accumulatorOf st2 "s")) =
      some ([], some (maxSafeInteger + 1)) := by decide

/-- C9 (amended): re-scheduling a registered system (scheduled or not)
replaces its schedule with a fresh one whose accumulator is
Number.MAX_SAFE_INTEGER, regardless of how much of the previous interval
had accumulated; and whenever the new threshold (`interval * 1000` for
seconds, `interval - 1` for updates) is at most Number.MAX_SAFE_INTEGER,
a non-frozen re-scheduled system is invoked (accumulator reset to 0) at
its next opportunity to run. -/
theorem c9_reschedule :
    (∀ (st : UniverseState) (name : String) (entry : SystemEntry) (x : Int)
       (unit : ScheduleUnit),
      objGet st.systemRegistry name = some entry →
      ∃ st', scheduleSystem st name x unit = Except.ok st' ∧
        objGet st'.systemRegistry name = some { entry with
          schedule := some { x := x, seconds := unit == ScheduleUnit.seconds,
                             timeSinceLastUpdate := maxSafeInteger } }) ∧
    (∀ (st : UniverseState) (name : String) (entry : SystemEntry) (x : Int)
       (unit : ScheduleUnit) (delta : Int) (st' : UniverseState),
      objGet st.systemRegistry name = some entry →
      entry.isFrozen = false →
      (if (unit == ScheduleUnit.seconds) = true then x * 1000 else x - 1) ≤
        maxSafeInteger →
      scheduleSystem st name x unit = Except.ok st' →
      stepSystem st' delta name =
        invoke { st' with
          systemRegistry := objSet st'.systemRegistry name { entry with
            schedule := some { x := x,
                               seconds := unit == ScheduleUnit.seconds,
                               timeSinceLastUpdate := 0 } } }
          name entry.processor) := by
  constructor
  · intro st name entry x unit hg
    refine ⟨{ st with
        systemRegistry := objSet st.systemRegistry name { entry with
          schedule := some { x := x, seconds := unit == ScheduleUnit.seconds,
                             timeSinceLastUpdate := maxSafeInteger } } },
      by simp [scheduleSystem, hg], objGet_objSet_self _ _ _⟩
  · intro st name entry x unit delta st' hg hf hth hsch
    have hst' : st' = { st with
        systemRegistry := objSet st.systemRegistry name { entry with
          schedule := some { x := x, seconds := unit == ScheduleUnit.seconds,
                             timeSinceLastUpdate := maxSafeInteger } } } := by
      simp [scheduleSystem, hg] at hsch
      exact hsch.symm
    subst hst'
    have hg' : objGet
        (objSet st.systemRegistry name { entry with
          schedule := some { x := x, seconds := unit == ScheduleUnit.seconds,
                             timeSinceLastUpdate := maxSafeInteger } })
        name = some { entry with
          schedule := some { x := x, seconds := unit == ScheduleUnit.seconds,
                             timeSinceLastUpdate := maxSafeInteger } } :=
      objGet_objSet_self _ _ _
    simp only [hf] at hg'
    simp [stepSystem, hg', hf, not_lt.mpr hth]
    intro hlt
    exact absurd hlt (by simpa using not_lt.mpr hth)

/-- C9 witness: re-schedule the mid-interval fixture as "every 3 updates"
(threshold 2 ≤ Number.MAX_SAFE_INTEGER): the schedule is replaced with a
maximally overdue fresh one, and the next step invokes the processor. -/
theorem c9_reschedule_witness :
    (∃ st', scheduleSystem preScheduled "s" 3 ScheduleUnit.updates =
        Except.ok st' ∧
      objGet st'.systemRegistry "s" = some { preEntry with
        schedule := some { x := 3,
                           seconds := ScheduleUnit.updates == ScheduleUnit.seconds,
                           timeSinceLastUpdate := maxSafeInteger } }) ∧
    (∀ st', scheduleSystem preScheduled "s" 3 ScheduleUnit.updates =
        Except.ok st' →
      stepSystem st' 1 "s" =
        invoke { st' with
          systemRegistry := objSet st'.systemRegistry "s" { preEntry with
            schedule := some { x := 3,
                               seconds := ScheduleUnit.updates == ScheduleUnit.seconds,
                               timeSinceLastUpdate := 0 } } }
          "s" preEntry.processor) :=
  ⟨c9_reschedule.1 preScheduled "s" preEntry 3 ScheduleUnit.updates rfl,
   fun st' hsch =>
     c9_reschedule.2 preScheduled "s" preEntry 3 ScheduleUnit.updates 1 st'
       rfl rfl (by decide) hsch⟩

end Necst
